import Mathlib

/-!
Verification of the authentication and account-security core of the
URL_changer service (`backend/auth_enhanced.py`, `backend/main.py`,
`backend/database.py`).  Python functions are shallowly embedded as pure
Lean functions: module-level mutable state (the `failed_login_attempts`
map) is threaded explicitly, raised `HTTPException`s become `Except.error`
values, and clock readings (`datetime.utcnow()`) become explicit
`now : Int` parameters counted in seconds since the epoch.
-/

set_option autoImplicit false

/-- Python `str.lower()` and SQL `LOWER`, character-wise lowercasing (exact on
the ASCII range, to which `validate_username` constrains identifiers). -/
def String.lowerStr (s : String) : String :=
  String.mk (s.toList.map Char.toLower)

namespace UrlChanger

/-- Outcome of a raised `HTTPException`: status code and detail string. -/
structure HTTPError where
  status_code : Nat
  detail : String
  deriving DecidableEq, Repr

deriving instance DecidableEq for Except

/-- UTF-8 encoding of one character, as in Python `str.encode("utf-8")`. -/
def utf8Bytes (c : Char) : List Nat :=
  let n := c.toNat
  if n < 0x80 then [n]
  else if n < 0x800 then [0xC0 + n / 0x40, 0x80 + n % 0x40]
  else if n < 0x10000 then [0xE0 + n / 0x1000, 0x80 + n / 0x40 % 0x40, 0x80 + n % 0x40]
  else [0xF0 + n / 0x40000, 0x80 + n / 0x1000 % 0x40, 0x80 + n / 0x40 % 0x40, 0x80 + n % 0x40]

/-- Python `s.encode("utf-8")` as a byte list. -/
def strBytes (s : String) : List Nat :=
  s.toList.flatMap utf8Bytes

/-- Model of a hash string produced by `bcrypt.hashpw`.  The modular-crypt
output determines, and is determined by, the salt and the digest of the key
bytes the algorithm reads; bcrypt reads at most the first 72 bytes of the
password (its documented input limit), so a hash is modelled as the salt
together with the truncated key.  Collisions of the underlying Blowfish-based
digest are not modelled (the digest is treated as injective on the bytes
bcrypt reads), and the `ValueError` the library raises on NUL-containing
passwords is outside the model. -/
structure BcryptHash where
  salt : Nat
  key72 : List Nat
  deriving DecidableEq, Repr

/-- Model of `bcrypt.hashpw(password, salt)`. -/
def bcrypt_hashpw (password : List Nat) (salt : Nat) : BcryptHash :=
  ⟨salt, password.take 72⟩

/-- Model of `bcrypt.checkpw(password, hashed)`: re-hash the candidate with the
salt recorded in `hashed` and compare with `hashed`. -/
def bcrypt_checkpw (password : List Nat) (hashed : BcryptHash) : Bool :=
  decide (bcrypt_hashpw password hashed.salt = hashed)

/-- Embedding of `get_password_hash` (auth_enhanced.py:105-109).  The random
salt from `bcrypt.gensalt(rounds=12)` is an explicit parameter (fresh
randomness per call). -/
def get_password_hash (password : String) (salt : Nat) : BcryptHash :=
  bcrypt_hashpw (strBytes password) salt

/-- Embedding of `verify_password` (auth_enhanced.py:96-103).  The
`except` branch that returns `False` on a malformed stored hash cannot fire in
the model because every `BcryptHash` value is well formed. -/
def verify_password (plain_password : String) (hashed_password : BcryptHash) : Bool :=
  bcrypt_checkpw (strBytes plain_password) hashed_password

/-- Claim set of a decoded JWT payload.  `create_access_token` writes `sub`,
`user_id`, `iat`, `exp`, `jti` and `iss`; `verify_token` reads `sub`,
`user_id` and `iat`, and the jose decoder validates `exp`. -/
structure JWTPayload where
  sub : Option String
  user_id : Option Int
  iat : Option Int
  exp : Option Int
  jti : Option String
  iss : Option String
  deriving DecidableEq, Repr

/-- A presented bearer token: whether its signature verifies under the server
secret, whether its payload parses as a claim set, and the claims themselves
(meaningful only when `parse_ok = true`). -/
structure Token where
  sig_ok : Bool
  parse_ok : Bool
  payload : JWTPayload
  deriving DecidableEq, Repr

/-- Model of `jose.jwt.decode(token, SECRET_KEY, algorithms=[ALGORITHM])`
(auth_enhanced.py:135): raises `JWTError` when the signature does not verify,
the payload does not parse, or an `exp` claim is present and earlier than the
current time; otherwise returns the claims.  jose performs no expiry check
when the `exp` claim is absent. -/
def jwt_decode (now : Int) (t : Token) : Option JWTPayload :=
  if t.sig_ok && t.parse_ok &&
      !(match t.payload.exp with
        | some e => decide (e < now)
        | none => false) then
    some t.payload
  else
    none

/-- Embedding of `create_access_token` (auth_enhanced.py:111-129) as called
from `login`, which always supplies `expires_delta` (in seconds here).  The
random `jti` from `secrets.token_hex(16)` is an explicit parameter; the issuer
tag is the fixed string `"url-shortener"`.  The issued token is signed and
well formed by construction. -/
def create_access_token (sub : String) (user_id : Int) (expires_delta : Int)
    (now : Int) (jti : String) : Token :=
  ⟨true, true,
    ⟨some sub, some user_id, some now, some (now + expires_delta), some jti,
      some "url-shortener"⟩⟩

/-- Embedding of `verify_token` (auth_enhanced.py:131-166).  After decoding,
it rejects a payload whose `sub` or `user_id` claim is missing, and then runs
the maximum-age check under the guard `if issued_at:` — Python truthiness, so
the check is skipped both when the `iat` claim is absent and when it equals
`0`.  `datetime.fromtimestamp` is read at the server's UTC clock. -/
def verify_token (now : Int) (t : Token) : Except HTTPError JWTPayload :=
  match jwt_decode now t with
  | none => .error ⟨401, "Could not validate credentials"⟩
  | some payload =>
    if payload.sub.isNone || payload.user_id.isNone then
      .error ⟨401, "Could not validate credentials"⟩
    else
      match payload.iat with
      | some issued_at =>
        if issued_at ≠ 0 then
          if now > issued_at + 24 * 60 * 60 then
            .error ⟨401, "Token expired"⟩
          else
            .ok payload
        else
          .ok payload
      | none => .ok payload

/-- Account row of the `users` table (database.py:26-37).  The `is_admin`
field is the column added by `migrate_admin.py` line 27 (`ALTER TABLE users
ADD COLUMN is_admin BOOLEAN DEFAULT FALSE`), which the endpoints in `main.py`
read and write throughout; `database.py` in this snapshot predates that
migration, whose own docstring says it accompanies a `database.py` schema
update.  Column defaults: `is_active` TRUE (database.py:33), `is_admin` FALSE
(migrate_admin.py:27). -/
structure Account where
  id : Int
  username : String
  email : String
  hashed_password : BcryptHash
  is_active : Bool
  is_admin : Bool
  deriving DecidableEq, Repr

/-- Embedding of `UserCreate.validate_username` (main.py:213-219).  The regex
`^[a-zA-Z0-9_]+$` is nonempty-anchored ASCII alphanumerics and underscore. -/
def validate_username (v : String) : Except String String :=
  if v.length < 3 || 50 < v.length then
    .error "Username must be between 3 and 50 characters"
  else if !(v.length != 0 && v.toList.all fun c => c.isAlphanum || c == '_') then
    .error "Username can only contain letters, numbers, and underscores"
  else
    .ok v

/-- Embedding of `UserCreate.validate_password` (main.py:221-225): the only
password rule the registration endpoint enforces is a minimum length of 6. -/
def validate_password (v : String) : Except String String :=
  if v.length < 6 then
    .error "Password must be at least 6 characters long"
  else
    .ok v

/-- Embedding of the `register` handler body (main.py:271-310), after request
validation.  The duplicate checks compare under SQL `lower` on both sides,
modelled by `String.lowerStr` (exact on the ASCII range that
`validate_username` admits); on success the new row stores the lowercased
username and email, the bcrypt hash of the password, and the column defaults
`is_active = true` and `is_admin = false`.  The autoincrement id and the
random salt are explicit parameters. -/
def register (db : List Account) (username email password : String)
    (salt : Nat) (new_id : Int) : Except HTTPError (Account × List Account) :=
  if db.any fun u => u.username.lowerStr == username.lowerStr then
    .error ⟨400, "Username already registered"⟩
  else if db.any fun u => u.email.lowerStr == email.lowerStr then
    .error ⟨400, "Email already registered"⟩
  else
    let user : Account :=
      ⟨new_id, username.lowerStr, email.lowerStr, get_password_hash password salt,
        true, false⟩
    .ok (user, db ++ [user])

/-- The `/api/register` pipeline: pydantic field validation (the 422 response
carries the validator's message; pydantic aggregates messages across fields,
modelled here field by field in declaration order) followed by the handler.
The `EmailStr` format check is not modelled; no claim depends on it. -/
def register_endpoint (db : List Account) (username email password : String)
    (salt : Nat) (new_id : Int) : Except HTTPError (Account × List Account) :=
  match validate_username username with
  | .error msg => .error ⟨422, msg⟩
  | .ok _ =>
    match validate_password password with
    | .error msg => .error ⟨422, msg⟩
    | .ok _ => register db username email password salt new_id

/-- Embedding of `authenticate_user` (main.py:153-158): the first row whose
username matches case-insensitively, then the bcrypt check; the Python
`False` result becomes `none`. -/
def authenticate_user (db : List Account) (username password : String) :
    Option Account :=
  match db.find? fun u => u.username.lowerStr == username.lowerStr with
  | none => none
  | some user =>
    if verify_password password user.hashed_password then some user else none

/-- `ACCESS_TOKEN_EXPIRE_MINUTES` (auth_enhanced.py:22), default 30. -/
def ACCESS_TOKEN_EXPIRE_MINUTES : Int := 30

/-- Embedding of the `login` handler (main.py:312-333).  Note what is absent:
the handler calls only `authenticate_user` and `create_access_token`.  It
never consults `check_rate_limit`, never calls `record_failed_attempt` on a
failure and never calls `clear_failed_attempts` on a success — no code in the
repository calls any of those three functions. -/
def login (db : List Account) (username password : String) (now : Int)
    (jti : String) : Except HTTPError Token :=
  match authenticate_user db username password with
  | none => .error ⟨401, "Incorrect username or password"⟩
  | some user =>
    .ok (create_access_token user.username user.id
          (ACCESS_TOKEN_EXPIRE_MINUTES * 60) now jti)

/-- Embedding of `get_current_user` (main.py:129-142).  A successful
`verify_token` guarantees the `user_id` claim is present, so the `getD`
default is never read. -/
def get_current_user (db : List Account) (now : Int) (t : Token) :
    Except HTTPError Account :=
  match verify_token now t with
  | .error e => .error e
  | .ok token_data =>
    match db.find? fun u => u.id == token_data.user_id.getD 0 with
    | none => .error ⟨401, "User not found or inactive"⟩
    | some user =>
      if !user.is_active then
        .error ⟨401, "User not found or inactive"⟩
      else
        .ok user

/-- Embedding of `get_admin_user` (main.py:144-151). -/
def get_admin_user (current_user : Account) : Except HTTPError Account :=
  if !current_user.is_admin then
    .error ⟨403, "Admin access required"⟩
  else
    .ok current_user

/-- One value of the module-level `failed_login_attempts` dict
(auth_enhanced.py:26): the record of one source.  The record created on a
first failure (auth_enhanced.py:73-77) has no `last_attempt` key and no
`lockout_until` key, hence the `Option` fields; the Python `set` of attempted
usernames is a duplicate-free list. -/
structure AttemptData where
  count : Nat
  first_attempt : Int
  last_attempt : Option Int
  usernames : List String
  lockout_until : Option Int
  deriving DecidableEq, Repr

/-- The module-level `failed_login_attempts : Dict[str, ...]` state, as an
association list from source address to record.  Dict insertion order is
irrelevant to every property proved here. -/
abbrev FailedLoginMap := List (String × AttemptData)

/-- Python `failed_login_attempts.get(client_ip)`. -/
def lookupAttempt (m : FailedLoginMap) (client_ip : String) : Option AttemptData :=
  (m.find? fun e => e.1 == client_ip).map fun e => e.2

/-- Python `del failed_login_attempts[client_ip]`. -/
def eraseAttempt (m : FailedLoginMap) (client_ip : String) : FailedLoginMap :=
  m.filter fun e => e.1 != client_ip

/-- Python `failed_login_attempts[client_ip] = d`. -/
def setAttempt (m : FailedLoginMap) (client_ip : String) (d : AttemptData) :
    FailedLoginMap :=
  eraseAttempt m client_ip ++ [(client_ip, d)]

/-- `MAX_FAILED_ATTEMPTS` (auth_enhanced.py:27). -/
def MAX_FAILED_ATTEMPTS : Nat := 5

/-- `LOCKOUT_DURATION` (auth_enhanced.py:28), 15 minutes in seconds. -/
def LOCKOUT_DURATION : Int := 15 * 60

/-- Embedding of `check_rate_limit` (auth_enhanced.py:54-68): returns the
verdict together with the map, from which a stale lockout is lazily deleted.
A record below the lockout threshold (no `lockout_until` key) never blocks. -/
def check_rate_limit (now : Int) (client_ip : String) (m : FailedLoginMap) :
    Bool × FailedLoginMap :=
  match lookupAttempt m client_ip with
  | none => (true, m)
  | some attempt_data =>
    match attempt_data.lockout_until with
    | some t =>
      if now > t then (true, eraseAttempt m client_ip) else (false, m)
    | none => (true, m)

/-- Embedding of `record_failed_attempt` (auth_enhanced.py:70-89).  The
`if username:` guard is Python truthiness: `None` and the empty string are
both skipped.  Once the incremented count reaches `MAX_FAILED_ATTEMPTS`, the
lockout deadline is (re)set to `now + LOCKOUT_DURATION`. -/
def record_failed_attempt (now : Int) (client_ip : String)
    (username : Option String) (m : FailedLoginMap) : FailedLoginMap :=
  let a0 := (lookupAttempt m client_ip).getD ⟨0, now, none, [], none⟩
  let a1 := { a0 with count := a0.count + 1, last_attempt := some now }
  let a2 :=
    match username with
    | some u =>
      if u == "" || a1.usernames.contains u then a1
      else { a1 with usernames := a1.usernames ++ [u] }
    | none => a1
  let a3 :=
    if MAX_FAILED_ATTEMPTS ≤ a2.count then
      { a2 with lockout_until := some (now + LOCKOUT_DURATION) }
    else
      a2
  setAttempt m client_ip a3

/-- Embedding of `clear_failed_attempts` (auth_enhanced.py:91-94). -/
def clear_failed_attempts (client_ip : String) (m : FailedLoginMap) :
    FailedLoginMap :=
  eraseAttempt m client_ip

/-- One `/api/login` request paired with the module state of
`auth_enhanced.failed_login_attempts`.  The handler (main.py:312-333) neither
reads nor writes the map, so the state passes through unchanged whatever the
outcome of the request. -/
def handle_login (db : List Account) (m : FailedLoginMap)
    (username password : String) (now : Int) (jti : String) :
    Except HTTPError Token × FailedLoginMap :=
  (login db username password now jti, m)

/-- A sequence of `/api/login` requests `(username, password, now, jti)`
processed in order, threading the `failed_login_attempts` state; returns the
list of responses and the final state. -/
def run_logins (db : List Account) (m : FailedLoginMap) :
    List (String × String × Int × String) →
    List (Except HTTPError Token) × FailedLoginMap
  | [] => ([], m)
  | (u, p, now, jti) :: rest =>
    let r := handle_login db m u p now jti
    let tail := run_logins db r.2 rest
    (r.1 :: tail.1, tail.2)

/-- The account of `alice`: active, not admin, storing the bcrypt hash of her
password `CorrectHorse9` (salt 7). -/
def aliceAccount : Account :=
  ⟨1, "alice", "alice@x.com", get_password_hash "CorrectHorse9" 7, true, false⟩

/-- A one-account store holding only `alice`. -/
def dbAlice : List Account := [aliceAccount]

/-- The account that registering `("Alice", "A@x.com", "secret1")` with salt 3
and id 1 persists. -/
def accAliceReg : Account :=
  ⟨1, "alice", "a@x.com", get_password_hash "secret1" 3, true, false⟩

/-- The `failed_login_attempts` state after three direct
`record_failed_attempt` calls for source `10.0.0.1` at times 0, 60 and 120,
all attempting the username `alice`. -/
def st3 : FailedLoginMap :=
  record_failed_attempt 120 "10.0.0.1" (some "alice")
    (record_failed_attempt 60 "10.0.0.1" (some "alice")
      (record_failed_attempt 0 "10.0.0.1" (some "alice") []))

/-- A validly signed token whose `iat` claim is the integer `0`. -/
def tokIatZero : Token :=
  ⟨true, true,
    ⟨some "alice", some 1, some 0, some 2000000000, some "j", some "url-shortener"⟩⟩

/-- A validly signed token carrying no `iat` claim at all. -/
def tokNoIat : Token :=
  ⟨true, true,
    ⟨some "alice", some 1, none, some 4000000000, some "j", some "url-shortener"⟩⟩

/-- The token `login` issues to alice (user id 1) at time 1000. -/
def tokFor1 : Token := create_access_token "alice" 1 1800 1000 "j"

/-- An account row for user id 1 whose `is_active` flag is false. -/
def inactiveAlice : Account :=
  ⟨1, "alice", "alice@x.com", get_password_hash "CorrectHorse9" 7, false, false⟩

/-- What the claim C3 under examination calls a failing token: signature or
parse failure, a missing `sub` or `user_id` claim, expiry passed, or age since
the issue time above 24 hours.  This definition follows the claim's words, to
be compared with the embedded `verify_token`. -/
def c3_claim_fails (now : Int) (t : Token) : Prop :=
  t.sig_ok = false ∨ t.parse_ok = false ∨
    (∃ e, t.payload.exp = some e ∧ e < now) ∨
    t.payload.sub = none ∨ t.payload.user_id = none ∨
    (∃ i, t.payload.iat = some i ∧ now > i + 24 * 60 * 60)

/-- A 72-character secret: 72 repetitions of `a`. -/
def s72 : String := String.mk (List.replicate 72 'a')

/-- A 73-character secret: 72 repetitions of `a` followed by `b`. -/
def s73b : String := String.mk (List.replicate 72 'a' ++ ['b'])

/-- A 73-character secret: 72 repetitions of `a` followed by `c`. -/
def s73c : String := String.mk (List.replicate 72 'a' ++ ['c'])

/-- C9: `get_admin_user` returns the account unchanged exactly when its
`is_admin` flag is true and fails with the 403 Forbidden error exactly when
the flag is false; being a total function into these two outcomes, it has no
other effect and no other outcome. -/
theorem get_admin_user_spec (u : Account) :
    (get_admin_user u = .ok u ↔ u.is_admin = true) ∧
    (get_admin_user u = .error ⟨403, "Admin access required"⟩ ↔
      u.is_admin = false) := by
  cases h : u.is_admin <;> simp [get_admin_user, h]

/-- Acceptance condition of the embedded `verify_token`, for all inputs:
signature and parse succeed, a present `exp` claim lies at or after `now`,
the `sub` and `user_id` claims exist, and a present `iat` claim is either 0
(skipping the age check, by Python truthiness) or at most 24 hours old. -/
theorem verify_token_isOk_iff (now : Int) (t : Token) :
    (verify_token now t).isOk = true ↔
      t.sig_ok = true ∧ t.parse_ok = true ∧
      (∀ e, t.payload.exp = some e → now ≤ e) ∧
      t.payload.sub.isSome = true ∧ t.payload.user_id.isSome = true ∧
      (∀ i, t.payload.iat = some i → i = 0 ∨ now ≤ i + 24 * 60 * 60) := by
  obtain ⟨sig, par, pay⟩ := t
  obtain ⟨sub, uid, iat, exp, jti, iss⟩ := pay
  rcases exp with _ | e <;> rcases iat with _ | i <;>
    cases sig <;> cases par <;> cases sub <;> cases uid <;>
    simp [verify_token, jwt_decode, Except.isOk, Except.toBool]
  all_goals try (by_cases he : now ≤ e <;> simp [he, Except.isOk, Except.toBool])
  all_goals try (by_cases hi : i = 0 <;>
    by_cases ha : i + 86400 < now <;> simp [hi, ha, Except.isOk, Except.toBool])
  all_goals omega

/-- C10: a validly signed, parseable token with no `iat` claim gets no
maximum-age check at all: for every current time `now`, it is accepted
exactly when its signature verifies, its payload parses, its `exp` claim (if
any) has not passed, and the `sub` and `user_id` claims are present — no
condition on the token's age appears. -/
theorem verify_token_no_iat_no_age_check (now : Int) (t : Token)
    (h : t.payload.iat = none) :
    ((verify_token now t).isOk = true ↔
      t.sig_ok = true ∧ t.parse_ok = true ∧
      (∀ e, t.payload.exp = some e → now ≤ e) ∧
      t.payload.sub.isSome = true ∧ t.payload.user_id.isSome = true) := by
  rw [verify_token_isOk_iff]
  simp [h]

/-- Witness for C10: a token with no `iat` claim, presented 95 years of
seconds after the epoch, is accepted because its `exp` claim lies ahead. -/
theorem verify_token_no_iat_no_age_check_witness :
    (verify_token 3000000000 tokNoIat).isOk = true :=
  (verify_token_no_iat_no_age_check 3000000000 tokNoIat rfl).mpr
    ⟨rfl, rfl, by intro e he; simp [tokNoIat] at he; omega, rfl, rfl⟩

/-- Counterexample to C3: a validly signed token whose `iat` claim is the
integer 0 — an age of 1000000000 seconds at verification time, far beyond the
24-hour ceiling, with the nominal `exp` claim still in the future — satisfies
the claim's failure condition, yet `verify_token` accepts it: the guard
`if issued_at:` treats the claim value 0 like an absent claim. -/
theorem verify_token_overage_accepted_c3 :
    c3_claim_fails 1000000000 tokIatZero ∧
    verify_token 1000000000 tokIatZero = .ok tokIatZero.payload := by
  constructor
  · exact Or.inr (Or.inr (Or.inr (Or.inr (Or.inr ⟨0, rfl, by decide⟩))))
  · decide

/-- C3 amended: `verify_token` fails exactly when the signature does not
verify, the payload cannot be parsed, the `exp` claim is present and passed,
the `sub` or `user_id` claim is missing, or the `iat` claim is present,
nonzero, and more than 24 hours old — the age ceiling is skipped when `iat`
is absent or equal to 0. -/
theorem verify_token_fails_iff (now : Int) (t : Token) :
    (verify_token now t).isOk = false ↔
      t.sig_ok = false ∨ t.parse_ok = false ∨
        (∃ e, t.payload.exp = some e ∧ e < now) ∨
        t.payload.sub = none ∨ t.payload.user_id = none ∨
        (∃ i, t.payload.iat = some i ∧ i ≠ 0 ∧ now > i + 24 * 60 * 60) := by
  rw [Bool.eq_false_iff, Ne, verify_token_isOk_iff]
  obtain ⟨sig, par, pay⟩ := t
  obtain ⟨sub, uid, iat, exp, jti, iss⟩ := pay
  rcases exp with _ | e <;> rcases iat with _ | i <;>
    cases sig <;> cases par <;> cases sub <;> cases uid <;>
    simp <;> omega

/-- Counterexample to C5: bcrypt reads only the first 72 bytes of a secret,
so the two distinct 73-character secrets `s73b` and `s73c`... do not verify
as false against each other's hashes: here `verify(S1, hash(S2))` returns
true for `S1 ≠ S2`. -/
theorem bcrypt_prefix_collision_c5 :
    s73b ≠ s73c ∧ verify_password s73b (get_password_hash s73c 5) = true := by
  decide

/-- C5 amended: the hash-then-verify round trip always returns true, and for
secrets that differ somewhere within the first 72 bytes bcrypt reads,
verification against the other's hash returns false (digest collisions are
idealised away, matching the spec's overwhelming-probability reading);
secrets agreeing on their first 72 bytes verify interchangeably. -/
theorem password_hash_roundtrip_spec :
    (∀ (s : String) (salt : Nat),
        verify_password s (get_password_hash s salt) = true) ∧
    (∀ (s1 s2 : String) (salt : Nat),
        (strBytes s1).take 72 ≠ (strBytes s2).take 72 →
        verify_password s1 (get_password_hash s2 salt) = false) := by
  constructor
  · intro s salt
    exact decide_eq_true rfl
  · intro s1 s2 salt h
    apply decide_eq_false
    intro hc
    exact h (congrArg BcryptHash.key72 hc)

/-- Witness for C5 (amended): two short secrets that differ in their first 72
bytes do not verify against each other's hashes. -/
theorem password_hash_roundtrip_spec_witness :
    verify_password "hunter2x" (get_password_hash "differs9" 9) = false :=
  password_hash_roundtrip_spec.2 "hunter2x" "differs9" 9 (by decide)

/-- C4: `register` fails with the duplicate-username rejection when some
stored account has the same username up to case, fails with the
duplicate-email rejection when the username is fresh but some stored account
has the same email up to case, and otherwise persists exactly one new account
carrying the lowercased username and email, the salted hash of the secret,
`is_active = true` and `is_admin = false`. -/
theorem register_cases (db : List Account) (u e p : String) (salt : Nat)
    (nid : Int) :
    ((∃ a ∈ db, a.username.lowerStr = u.lowerStr) →
       register db u e p salt nid = .error ⟨400, "Username already registered"⟩) ∧
    ((∀ a ∈ db, a.username.lowerStr ≠ u.lowerStr) →
      (∃ a ∈ db, a.email.lowerStr = e.lowerStr) →
       register db u e p salt nid = .error ⟨400, "Email already registered"⟩) ∧
    ((∀ a ∈ db, a.username.lowerStr ≠ u.lowerStr) →
      (∀ a ∈ db, a.email.lowerStr ≠ e.lowerStr) →
       register db u e p salt nid =
         .ok (⟨nid, u.lowerStr, e.lowerStr, get_password_hash p salt, true, false⟩,
           db ++
             [⟨nid, u.lowerStr, e.lowerStr, get_password_hash p salt, true,
               false⟩])) := by
  refine ⟨fun h => ?_, fun h1 h2 => ?_, fun h1 h2 => ?_⟩
  · obtain ⟨a, ha, hu⟩ := h
    have hany : (db.any fun x => x.username.lowerStr == u.lowerStr) = true :=
      List.any_eq_true.mpr ⟨a, ha, by simpa using hu⟩
    simp [register, hany]
  · have hu : (db.any fun x => x.username.lowerStr == u.lowerStr) = false := by
      simp only [List.any_eq_false, beq_iff_eq]
      exact h1
    have he : (db.any fun x => x.email.lowerStr == e.lowerStr) = true := by
      obtain ⟨a, ha, hae⟩ := h2
      exact List.any_eq_true.mpr ⟨a, ha, by simpa using hae⟩
    simp [register, hu, he]
  · have hu : (db.any fun x => x.username.lowerStr == u.lowerStr) = false := by
      simp only [List.any_eq_false, beq_iff_eq]
      exact h1
    have he : (db.any fun x => x.email.lowerStr == e.lowerStr) = false := by
      simp only [List.any_eq_false, beq_iff_eq]
      exact h2
    simp [register, hu, he]

/-- Witness for C4, mirroring the spec's example: registering `Alice` into an
empty store persists the lowercased account with `is_admin = false` and
`is_active = true`, and a second registration under `alice` then collides
case-insensitively with it. -/
theorem register_cases_witness :
    register [] "Alice" "A@x.com" "secret1" 3 1 = .ok (accAliceReg, [accAliceReg]) ∧
    register [accAliceReg] "alice" "other@x.com" "secret2" 4 2 =
      .error ⟨400, "Username already registered"⟩ := by
  constructor
  · exact ((register_cases [] "Alice" "A@x.com" "secret1" 3 1).2.2 (by simp)
      (by simp)).trans (by decide)
  · exact (register_cases [accAliceReg] "alice" "other@x.com" "secret2" 4 2).1
      ⟨accAliceReg, by simp, by decide⟩

/-- C6: the rejection `login` returns when no stored account matches the
identifier is the identical value — status 401, detail "Incorrect username or
password" — to the rejection it returns when an account matches but the
secret fails the bcrypt check, so a caller cannot tell an unknown user from a
wrong password. -/
theorem login_uniform_rejection (db : List Account) (u1 p1 u2 p2 : String)
    (now1 now2 : Int) (j1 j2 : String)
    (h1 : ∀ a ∈ db, a.username.lowerStr ≠ u1.lowerStr) (a : Account)
    (h2 : db.find? (fun x => x.username.lowerStr == u2.lowerStr) = some a)
    (h3 : verify_password p2 a.hashed_password = false) :
    login db u1 p1 now1 j1 = .error ⟨401, "Incorrect username or password"⟩ ∧
    login db u2 p2 now2 j2 = .error ⟨401, "Incorrect username or password"⟩ ∧
    login db u1 p1 now1 j1 = login db u2 p2 now2 j2 := by
  have hfind : db.find? (fun x => x.username.lowerStr == u1.lowerStr) = none := by
    rw [List.find?_eq_none]
    intro x hx
    simpa using h1 x hx
  refine ⟨?_, ?_, ?_⟩
  · simp [login, authenticate_user, hfind]
  · simp [login, authenticate_user, h2, h3]
  · simp [login, authenticate_user, hfind, h2, h3]

/-- Witness for C6: against the one-account store, the unknown user `bob` and
a wrong password for `alice` draw the very same rejection. -/
theorem login_uniform_rejection_witness :
    login dbAlice "bob" "pw" 0 "j" =
      .error ⟨401, "Incorrect username or password"⟩ ∧
    login dbAlice "alice" "wrong-pass" 0 "j" =
      .error ⟨401, "Incorrect username or password"⟩ ∧
    login dbAlice "bob" "pw" 0 "j" = login dbAlice "alice" "wrong-pass" 0 "j" :=
  login_uniform_rejection dbAlice "bob" "pw" "alice" "wrong-pass" 0 0 "j" "j"
    (by decide) aliceAccount (by decide) (by decide)

/-- Counterexample to C7: with a verifying token for account reference 1, the
rejection when no account with id 1 exists and the rejection when the account
exists but is inactive are the same value — one 401 with detail "User not
found or inactive" — where the claim asserts two distinct rejections
(`InvalidToken` for a vanished account, `AccountInactive` for an inactive
one). -/
theorem get_current_user_uniform_c7 :
    get_current_user [] 1500 tokFor1 =
      .error ⟨401, "User not found or inactive"⟩ ∧
    get_current_user [inactiveAlice] 1500 tokFor1 =
      .error ⟨401, "User not found or inactive"⟩ ∧
    get_current_user [] 1500 tokFor1 =
      get_current_user [inactiveAlice] 1500 tokFor1 := by
  decide

/-- C7 amended: given a token that verifies, `get_current_user` loads the
account by the embedded account reference and fails when the account is
missing or when its `is_active` flag is false — with the same 401 rejection
"User not found or inactive" in both cases, not with distinct ones — and
returns the account when it is present and active. -/
theorem get_current_user_spec (db : List Account) (now : Int) (t : Token)
    (p : JWTPayload) (hv : verify_token now t = .ok p) :
    (db.find? (fun x => x.id == p.user_id.getD 0) = none →
       get_current_user db now t = .error ⟨401, "User not found or inactive"⟩) ∧
    (∀ u, db.find? (fun x => x.id == p.user_id.getD 0) = some u →
       u.is_active = false →
       get_current_user db now t = .error ⟨401, "User not found or inactive"⟩) ∧
    (∀ u, db.find? (fun x => x.id == p.user_id.getD 0) = some u →
       u.is_active = true → get_current_user db now t = .ok u) := by
  unfold get_current_user
  rw [hv]
  exact ⟨fun h => by simp [h], fun u hu hact => by simp [hu, hact],
    fun u hu hact => by simp [hu, hact]⟩

/-- Witness for C7 (amended): the token issued to alice authorizes her account
while it is present and active. -/
theorem get_current_user_spec_witness :
    get_current_user dbAlice 1500 tokFor1 = .ok aliceAccount :=
  (get_current_user_spec dbAlice 1500 tokFor1 tokFor1.payload (by decide)).2.2
    aliceAccount (by decide) rfl

/-- Counterexample to C8: a 6-character secret — shorter than the claimed
8-character minimum — passes the registration pipeline: the only live
password rule (`UserCreate.validate_password`) requires length 6, and the
8-minimum `is_strong_password` of auth_enhanced.py is called from nowhere. -/
theorem register_accepts_six_char_secret_c8 :
    (register_endpoint [] "alice" "a@x.com" "abc123" 3 1).isOk = true ∧
    ("abc123" : String).length = 6 := by
  decide

/-- C8 amended: for any request with a well-formed username, the registration
pipeline rejects the secret with the weak-secret validation error exactly
when it is shorter than 6 characters; at length 6 or more — so in particular
at lengths 6 and 7 — the password validator passes and the handler proceeds. -/
theorem register_password_minlen (db : List Account) (u e p : String)
    (salt : Nat) (nid : Int) (hu : ∃ v, validate_username u = .ok v) :
    (p.length < 6 →
       register_endpoint db u e p salt nid =
         .error ⟨422, "Password must be at least 6 characters long"⟩) ∧
    (6 ≤ p.length →
       register_endpoint db u e p salt nid = register db u e p salt nid) := by
  obtain ⟨v, hv⟩ := hu
  constructor
  · intro hlen
    simp [register_endpoint, hv, validate_password, hlen]
  · intro hlen
    have hnot : ¬p.length < 6 := by omega
    simp [register_endpoint, hv, validate_password, hnot]

/-- Witness for C8 (amended): a 5-character secret is rejected with the
weak-secret validation error. -/
theorem register_password_minlen_witness :
    register_endpoint [] "alice" "a@x.com" "abc12" 3 1 =
      .error ⟨422, "Password must be at least 6 characters long"⟩ :=
  (register_password_minlen [] "alice" "a@x.com" "abc12" 3 1
    ⟨"alice", by decide⟩).1 (by decide)

/-- C1, evaluated at the failing trace: five consecutive wrong-password login
attempts followed by a correct-password attempt within the 15-minute window.
The sixth request succeeds with a token and the `failed_login_attempts` state
is still empty afterwards — the handler consulted and recorded nothing — so
the source is never rate limited; while the lockout component itself, driven
directly with the same five failures, reports the source locked. -/
theorem login_never_rate_limited_c1 :
    (run_logins dbAlice []
        [("alice", "wrong-pass", 0, "j1"), ("alice", "wrong-pass", 60, "j2"),
          ("alice", "wrong-pass", 120, "j3"), ("alice", "wrong-pass", 180, "j4"),
          ("alice", "wrong-pass", 240, "j5"),
          ("alice", "CorrectHorse9", 300, "j6")]).1.getLast? =
      some (.ok (create_access_token "alice" 1 1800 300 "j6")) ∧
    (run_logins dbAlice []
        [("alice", "wrong-pass", 0, "j1"), ("alice", "wrong-pass", 60, "j2"),
          ("alice", "wrong-pass", 120, "j3"), ("alice", "wrong-pass", 180, "j4"),
          ("alice", "wrong-pass", 240, "j5"),
          ("alice", "CorrectHorse9", 300, "j6")]).2 = [] ∧
    (check_rate_limit 300 "10.0.0.1"
        (record_failed_attempt 240 "10.0.0.1" (some "alice")
          (record_failed_attempt 180 "10.0.0.1" (some "alice")
            (record_failed_attempt 120 "10.0.0.1" (some "alice")
              (record_failed_attempt 60 "10.0.0.1" (some "alice")
                (record_failed_attempt 0 "10.0.0.1" (some "alice") [])))))).1 =
      false := by
  decide

/-- C2, evaluated at the failing state: with a three-failure record on the
books for the source, a successful login returns a token but leaves the
`failed_login_attempts` record exactly as it was — count 3, not discarded —
because the handler never calls `clear_failed_attempts`. -/
theorem login_success_leaves_lockout_record_c2 :
    (handle_login dbAlice st3 "alice" "CorrectHorse9" 200 "j").1 =
      .ok (create_access_token "alice" 1 1800 200 "j") ∧
    (handle_login dbAlice st3 "alice" "CorrectHorse9" 200 "j").2 = st3 ∧
    lookupAttempt st3 "10.0.0.1" = some ⟨3, 0, some 120, ["alice"], none⟩ := by
  decide

end UrlChanger


